import Mathlib

/-!
Verification of the circle-physics simulation (naive `main.cpp`, uniform-grid
`unigrid.cpp`, and quadtree `quadtree.cpp` variants) against its design
specification.

The embedding translates the C++ sources into Lean over exact rational
arithmetic (`ℚ` in place of `float`, `ℤ` in place of `int`).  Each definition
mirrors one function of the sources; per-variant differences (elasticity
constants, friction terms, by-value copies of circles, presence of the
`oldPosition` field update) are kept distinct and documented at the definition
they affect.
-/

namespace SDS

/-- Two-dimensional vector, the embedding of raylib's `Vector2`
(components were `float`; modelled by exact rationals). -/
structure Vec2 where
  x : ℚ
  y : ℚ
deriving DecidableEq, Repr, Inhabited

/-- raymath `Vector2Add`. -/
def vector2Add (v w : Vec2) : Vec2 := ⟨v.x + w.x, v.y + w.y⟩

/-- raymath `Vector2Subtract`. -/
def vector2Subtract (v w : Vec2) : Vec2 := ⟨v.x - w.x, v.y - w.y⟩

/-- raymath `Vector2Scale`. -/
def vector2Scale (v : Vec2) (s : ℚ) : Vec2 := ⟨v.x * s, v.y * s⟩

/-- raymath `Vector2DotProduct`. -/
def vector2DotProduct (v w : Vec2) : ℚ := v.x * w.x + v.y * w.y

/-- raymath `Vector2DistanceSqr`. -/
def vector2DistanceSqr (v w : Vec2) : ℚ :=
  (w.x - v.x) * (w.x - v.x) + (w.y - v.y) * (w.y - v.y)

/-- `WINDOW_WIDTH(1280)`, identical in all three variants. -/
def WINDOW_WIDTH : ℚ := 1280

/-- `WINDOW_HEIGHT(720)`, identical in all three variants. -/
def WINDOW_HEIGHT : ℚ := 720

/-- `TIMESTEP(1.0f / TARGET_FPS)` with `TARGET_FPS(60)`. -/
def TIMESTEP : ℚ := 1 / 60

/-- `VELOCITY_THRESHOLD(5.0f)`, identical in all three variants. -/
def VELOCITY_THRESHOLD : ℚ := 5

/-- `ELASTICITY(1.0f)` of `quadtree.cpp` and `unigrid.cpp`. -/
def ELASTICITY_grid : ℚ := 1

/-- `ELASTICITY(0.5f)` of `main.cpp`. -/
def ELASTICITY_naive : ℚ := 1 / 2

/-- `FRICTION(-0.0f)` of `unigrid.cpp`; as a rational the negative zero is `0`. -/
def FRICTION_unigrid : ℚ := 0

/-- `GRID_SIZE(60)` of `unigrid.cpp`. -/
def GRID_SIZE : ℚ := 60

/-- The `Circle` body.  `radius` and `mass` are C++ `int`s, hence `ℤ`.
`main.cpp`'s struct lacks the `oldPosition` member; its functions below simply
never read or write that field, so one shared record serves all variants. -/
structure Circle where
  radius : ℤ
  mass : ℤ
  acceleration : Vec2
  velocity : Vec2
  position : Vec2
  oldPosition : Vec2
deriving DecidableEq, Repr, Inhabited

/-- `Circle::update` of `quadtree.cpp` (lines 107-121) and of `main.cpp`
(lines 89-100) up to the `oldPosition` save, which only `quadtree.cpp` has;
see `mainUpdate` for the `main.cpp` version.  The C++ expression `1 / mass`
divides two `int`s, so it is an integer division (`0` whenever `mass ≥ 2`);
the embedding keeps that by dividing in `ℤ` before casting.  `abs` applied to
the velocity component and compared against the integral threshold `5` agrees
with the exact `|v| < 5` used here.  Both call sites use the default force
`(0,0)`; the body reads the global `TIMESTEP`, not its `timestep` parameter. -/
def quadUpdate (c : Circle) (force : Vec2) : Circle :=
  let acceleration := vector2Scale force ((1 / c.mass : ℤ) : ℚ)
  let v1 := vector2Add c.velocity (vector2Scale acceleration TIMESTEP)
  let v2 : Vec2 := ⟨if |v1.x| < VELOCITY_THRESHOLD then 0 else v1.x,
                    if |v1.y| < VELOCITY_THRESHOLD then 0 else v1.y⟩
  { c with acceleration := acceleration, velocity := v2,
           oldPosition := c.position,
           position := vector2Add c.position (vector2Scale v2 TIMESTEP) }

/-- `Circle::update` of `unigrid.cpp` (lines 100-111): identical to
`quadUpdate` except that the acceleration adds the friction term
`Vector2Scale(velocity, FRICTION)` with `FRICTION = -0.0f`. -/
def unigridUpdate (c : Circle) (force : Vec2) : Circle :=
  let acceleration := vector2Add (vector2Scale force ((1 / c.mass : ℤ) : ℚ))
    (vector2Scale c.velocity FRICTION_unigrid)
  let v1 := vector2Add c.velocity (vector2Scale acceleration TIMESTEP)
  let v2 : Vec2 := ⟨if |v1.x| < VELOCITY_THRESHOLD then 0 else v1.x,
                    if |v1.y| < VELOCITY_THRESHOLD then 0 else v1.y⟩
  { c with acceleration := acceleration, velocity := v2,
           oldPosition := c.position,
           position := vector2Add c.position (vector2Scale v2 TIMESTEP) }

/-- `Circle::update` of `main.cpp` (lines 89-100): as `quadUpdate` but the
struct has no `oldPosition` member, so nothing corresponding is written. -/
def mainUpdate (c : Circle) (force : Vec2) : Circle :=
  let acceleration := vector2Scale force ((1 / c.mass : ℤ) : ℚ)
  let v1 := vector2Add c.velocity (vector2Scale acceleration TIMESTEP)
  let v2 : Vec2 := ⟨if |v1.x| < VELOCITY_THRESHOLD then 0 else v1.x,
                    if |v1.y| < VELOCITY_THRESHOLD then 0 else v1.y⟩
  { c with acceleration := acceleration, velocity := v2,
           position := vector2Add c.position (vector2Scale v2 TIMESTEP) }

/-- `Circle::getImpulse`, identical in all three files up to the file's
`ELASTICITY` constant, which is passed explicitly here.  The masses are
divided as `1.0f / mass`, a floating-point division, hence `ℚ` division. -/
def getImpulse (elasticity : ℚ) (a b : Circle)
    (relativeVelocity collisionNormal : Vec2) : ℚ :=
  -((1 + elasticity) * vector2DotProduct relativeVelocity collisionNormal /
    (vector2DotProduct collisionNormal collisionNormal *
      (1 / (a.mass : ℚ) + 1 / (b.mass : ℚ))))

/-- The overlap test shared by every `handleCircleCollision`:
`pow(a->radius + b->radius, 2) >= Vector2DistanceSqr(a->position, b->position)`. -/
def collisionDetected (a b : Circle) : Bool :=
  decide (((a.radius + b.radius : ℤ) : ℚ) * ((a.radius + b.radius : ℤ) : ℚ) ≥
    vector2DistanceSqr a.position b.position)

/-- The approach gate shared by every `handleCircleCollision`.  The source
computes `Vector2DotProduct(Vector2Normalize(rv), Vector2Normalize(n)) > 0`.
Normalizing scales each vector by the positive factor `1/length` when its
length is positive and yields the zero vector (dot product `0`, gate false)
otherwise, so the sign of the tested dot product equals the sign of
`dot rv n`, and the gate holds iff `0 < dot rv n`.  The embedding uses that
normalization-free form because the Euclidean length is irrational in
general. -/
def approaching (relativeVelocity collisionNormal : Vec2) : Bool :=
  decide (0 < vector2DotProduct relativeVelocity collisionNormal)

/-- One iteration of `Circle::handleCircleCollision` of `quadtree.cpp`
(lines 123-165) for a pair of distinct circles `a = this`,
`b = circles[i]`.  In this variant `b` is a pointer, so the
`b->velocity` update reaches the stored circle: both updated circles are
returned.  (The `a == b` pointer self-test is handled at the call site,
`quadHandleCandidates`.) -/
def quadResolvePair (a b : Circle) : Circle × Circle :=
  if collisionDetected a b then
    let collisionNormalAB : Vec2 :=
      ⟨b.position.x - a.position.x, b.position.y - a.position.y⟩
    let relativeVelocityAB := vector2Subtract a.velocity b.velocity
    if approaching relativeVelocityAB collisionNormalAB then
      let impulse := getImpulse ELASTICITY_grid a b relativeVelocityAB collisionNormalAB
      ({ a with velocity := (vector2Add a.velocity
            (vector2Scale (vector2Scale collisionNormalAB (1 / (a.mass : ℚ))) impulse)) },
       { b with velocity := (vector2Subtract b.velocity
            (vector2Scale (vector2Scale collisionNormalAB (1 / (b.mass : ℚ))) impulse)) })
    else (a, b)
  else (a, b)

/-- One iteration of `Circle::handleCircleCollision` of `unigrid.cpp`
(lines 114-159) for `a = this` against `b`.  In this variant the line
`Circle b = *circles[i];` copies the circle by value; the
`b.velocity = Vector2Subtract(...)` near the end of the loop writes to that
local copy and is discarded when the iteration ends, so only the updated `a`
results.  (The `if (a == &b) continue;` self-test is commented out in the
source, so the call site does not skip `a` itself.) -/
def unigridResolveAgainst (a b : Circle) : Circle :=
  if collisionDetected a b then
    let collisionNormalAB : Vec2 :=
      ⟨b.position.x - a.position.x, b.position.y - a.position.y⟩
    let relativeVelocityAB := vector2Subtract a.velocity b.velocity
    if approaching relativeVelocityAB collisionNormalAB then
      let impulse := getImpulse ELASTICITY_grid a b relativeVelocityAB collisionNormalAB
      { a with velocity := (vector2Add a.velocity
          (vector2Scale (vector2Scale collisionNormalAB (1 / (a.mass : ℚ))) impulse)) }
    else a
  else a

/-- Exact square root on `ℚ`: `some r` with `r * r = q` when the reduced
numerator and denominator of the nonnegative `q` are perfect squares, `none`
otherwise. -/
def ratSqrtOpt (q : ℚ) : Option ℚ :=
  let n := q.num.toNat.sqrt
  let d := q.den.sqrt
  if (n : ℤ) * n = q.num ∧ d * d = q.den then some ((n : ℚ) / (d : ℚ)) else none

/-- raymath `Vector2Normalize`: `v` scaled by `1/length` when `length > 0`,
the zero vector otherwise.  The length `sqrt(dot v v)` is irrational in
general; this embedding is exact whenever the squared length is a rational
square (in particular at `v = (0,0)`, the only argument relevant to the
concrete runs below) and falls back to the zero vector otherwise. -/
def vector2Normalize (v : Vec2) : Vec2 :=
  match ratSqrtOpt (vector2DotProduct v v) with
  | some l => if 0 < l then ⟨v.x / l, v.y / l⟩ else ⟨0, 0⟩
  | none => ⟨0, 0⟩

/-- One iteration of `Circle::handleCircleCollision` of `main.cpp`
(lines 102-154) for `a = this` against `b`.  Here too `Circle b = circles[i];`
is a by-value copy, so the updates to `b.position` and `b.velocity` are
discarded and only the updated `a` results; moreover `if (a == &b) continue;`
compares `this` against the address of the local copy and never fires, so the
call site iterates over every entry including `a` itself.  The separation
branch tests `Vector2Length(rv) <= 0.1f`, i.e. `dot rv rv ≤ 1/100`. -/
def mainResolveAgainst (a b : Circle) : Circle :=
  if collisionDetected a b then
    let collisionNormalAB : Vec2 :=
      ⟨b.position.x - a.position.x, b.position.y - a.position.y⟩
    let relativeVelocityAB := vector2Subtract a.velocity b.velocity
    let a1 := if vector2DotProduct relativeVelocityAB relativeVelocityAB ≤ 1 / 100 then
        { a with position := (vector2Subtract a.position
            (vector2Scale (vector2Normalize collisionNormalAB) (1 / 2))) }
      else a
    if approaching relativeVelocityAB collisionNormalAB then
      let impulse := getImpulse ELASTICITY_naive a b relativeVelocityAB collisionNormalAB
      { a1 with velocity := (vector2Add a1.velocity
          (vector2Scale (vector2Scale collisionNormalAB (1 / (a.mass : ℚ))) impulse)) }
    else a1
  else a

/-- `Circle::handleEdgeCollision` of `quadtree.cpp` (lines 167-183) and
`unigrid.cpp` (lines 161-177): both out-of-bounds flags are computed from the
entry position, then each branch restores `oldPosition` and negates its
axis's velocity component.  (`unigrid.cpp` routes the restore through
`setPosition`, which additionally refreshes the circle's cached
`gridPositions`; the cache is derived data recomputed on every position
change, so it is modelled as the derived function `refreshGridPositions`
below rather than stored.) -/
def handleEdgeCollision (c : Circle) : Circle :=
  let circleIsOutOfBoundsX :=
    decide (c.position.x ≥ WINDOW_WIDTH - c.radius) || decide (c.position.x ≤ (c.radius : ℚ))
  let circleIsOutOfBoundsY :=
    decide (c.position.y ≥ WINDOW_HEIGHT - c.radius) || decide (c.position.y ≤ (c.radius : ℚ))
  let c1 := if circleIsOutOfBoundsX then
      { c with position := c.oldPosition, velocity := ⟨c.velocity.x * (-1), c.velocity.y⟩ }
    else c
  if circleIsOutOfBoundsY then
    { c1 with position := c1.oldPosition, velocity := ⟨c1.velocity.x, c1.velocity.y * (-1)⟩ }
  else c1

/-- `Circle::handleEdgeCollision` of `main.cpp` (lines 156-170): the struct
has no `oldPosition`, so the branches only negate the velocity components;
the position is left where the integration put it. -/
def mainHandleEdgeCollision (c : Circle) : Circle :=
  let circleIsOutOfBoundsX :=
    decide (c.position.x ≥ WINDOW_WIDTH - c.radius) || decide (c.position.x ≤ (c.radius : ℚ))
  let circleIsOutOfBoundsY :=
    decide (c.position.y ≥ WINDOW_HEIGHT - c.radius) || decide (c.position.y ≤ (c.radius : ℚ))
  let c1 := if circleIsOutOfBoundsX then
      { c with velocity := ⟨c.velocity.x * (-1), c.velocity.y⟩ }
    else c
  if circleIsOutOfBoundsY then
    { c1 with velocity := ⟨c1.velocity.x, c1.velocity.y * (-1)⟩ }
  else c1

/-- `MAX_DEPTH(4)` of `quadtree.cpp`. -/
def MAX_DEPTH : Nat := 4

/-- A quadtree node (`struct Quad` of `quadtree.cpp`): bounding square
(center, half-width), depth, stored object references (modelled as indices
into the simulation's circle list), and four children.  The C++ constructor
subdivides eagerly while `depth < MAX_DEPTH`, so children exist exactly on
nodes of depth below `MAX_DEPTH`; `leaf` covers the depth-capped nodes. -/
inductive Quad where
  | leaf (center : Vec2) (halfWidth : ℚ) (depth : Nat) (objects : List Nat)
  | node (center : Vec2) (halfWidth : ℚ) (depth : Nat) (objects : List Nat)
      (tl tr bl br : Quad)
deriving DecidableEq, Repr

/-- Center accessor for `Quad`. -/
def Quad.center : Quad → Vec2
  | .leaf c _ _ _ => c
  | .node c _ _ _ _ _ _ _ => c

/-- Half-width accessor for `Quad`. -/
def Quad.halfWidth : Quad → ℚ
  | .leaf _ h _ _ => h
  | .node _ h _ _ _ _ _ _ => h

/-- The `Quad(center, halfWidth, depth)` constructor together with
`Quad::subdivide`: the depth is clamped to `MAX_DEPTH` and the node
subdivides while below it, each child centered at `center ± h/2` with
half-width `h/2` (`halfOfHalfWidth = halfWidth / 2`; a C++ `int` division,
exact here because every half-width reachable from the root, 640, 320 and
160, is even).  The fuel argument bounds the recursion; `MAX_DEPTH` fuel
reaches the cap from the root. -/
def mkQuad : Nat → Vec2 → ℚ → Nat → Quad
  | 0, c, h, d => .leaf c h (min d MAX_DEPTH) []
  | fuel+1, c, h, d =>
    if MAX_DEPTH ≤ d then .leaf c h (min d MAX_DEPTH) []
    else
      .node c h d []
        (mkQuad fuel ⟨c.x - h/2, c.y - h/2⟩ (h/2) (d+1))
        (mkQuad fuel ⟨c.x + h/2, c.y - h/2⟩ (h/2) (d+1))
        (mkQuad fuel ⟨c.x - h/2, c.y + h/2⟩ (h/2) (d+1))
        (mkQuad fuel ⟨c.x + h/2, c.y + h/2⟩ (h/2) (d+1))

/-- The default `Quad()` root: center `(WINDOW_WIDTH/2, WINDOW_HEIGHT/2)`,
half-width `max(WINDOW_HEIGHT, WINDOW_WIDTH) / 2 = 640`, depth 1. -/
def rootQuad : Quad := mkQuad MAX_DEPTH ⟨640, 360⟩ 640 1

/-- `Quad::canContainCircle` (quadtree.cpp lines 332-346): whether the square
with the given center and half-width completely contains the circle's AABB. -/
def canContainCircle (center : Vec2) (halfWidth : ℚ) (c : Circle) : Bool :=
  let quadTopLeft : Vec2 := ⟨center.x - halfWidth, center.y - halfWidth⟩
  let quadBottomRight : Vec2 := ⟨center.x + halfWidth, center.y + halfWidth⟩
  let circleTopLeft : Vec2 := ⟨c.position.x - c.radius, c.position.y - c.radius⟩
  let circleBottomRight : Vec2 := ⟨c.position.x + c.radius, c.position.y + c.radius⟩
  decide (circleTopLeft.x ≥ quadTopLeft.x) && decide (circleTopLeft.y ≥ quadTopLeft.y) &&
  decide (circleBottomRight.x ≤ quadBottomRight.x) &&
  decide (circleBottomRight.y ≤ quadBottomRight.y)

/-- The `QuadPosition` enum of `quadtree.cpp`. -/
inductive QuadPosition where
  | none | topLeft | topRight | bottomLeft | bottomRight
deriving DecidableEq, Repr

/-- `Quad::getPositionThatCanContainCircle` (quadtree.cpp lines 350-370),
expressed over the parent's geometry (its children sit at `center ± h/2` with
half-width `h/2`, as built by `subdivide`).  The source tests all four
quadrants in the order top-left, top-right, bottom-left, bottom-right and
overwrites `position` on each hit, so the last matching quadrant wins. -/
def lastMatchGeom (center : Vec2) (h : ℚ) (c : Circle) : QuadPosition :=
  let p0 : QuadPosition := .none
  let p1 := if canContainCircle ⟨center.x - h/2, center.y - h/2⟩ (h/2) c then .topLeft else p0
  let p2 := if canContainCircle ⟨center.x + h/2, center.y - h/2⟩ (h/2) c then .topRight else p1
  let p3 := if canContainCircle ⟨center.x - h/2, center.y + h/2⟩ (h/2) c then .bottomLeft else p2
  let p4 := if canContainCircle ⟨center.x + h/2, center.y + h/2⟩ (h/2) c then .bottomRight else p3
  p4

/-- The specification's insertion rule (spec 4.2): the four quadrant tests in
the fixed order top-left, top-right, bottom-left, bottom-right, where the
FIRST matching quadrant is authoritative and no further quadrant is checked.
Stated from the spec's words for comparison with `lastMatchGeom`. -/
def firstMatchGeom (center : Vec2) (h : ℚ) (c : Circle) : QuadPosition :=
  if canContainCircle ⟨center.x - h/2, center.y - h/2⟩ (h/2) c then .topLeft
  else if canContainCircle ⟨center.x + h/2, center.y - h/2⟩ (h/2) c then .topRight
  else if canContainCircle ⟨center.x - h/2, center.y + h/2⟩ (h/2) c then .bottomLeft
  else if canContainCircle ⟨center.x + h/2, center.y + h/2⟩ (h/2) c then .bottomRight
  else .none

/-- `Quad::insert` (quadtree.cpp lines 373-413), parameterized by the
quadrant-selection strategy `pick` so that the source's last-match-wins scan
and the spec's first-match rule can be compared: at the depth cap (a leaf)
the object is appended here; otherwise the selected child (if any) receives
it recursively, and `none` appends it at the current node. -/
def Quad.insertWith (pick : Vec2 → ℚ → Circle → QuadPosition) :
    Quad → Nat → Circle → Quad
  | .leaf ctr h d objs, i, _ => .leaf ctr h d (objs ++ [i])
  | .node ctr h d objs tl tr bl br, i, c =>
    match pick ctr h c with
    | .none => .node ctr h d (objs ++ [i]) tl tr bl br
    | .topLeft => .node ctr h d objs (tl.insertWith pick i c) tr bl br
    | .topRight => .node ctr h d objs tl (tr.insertWith pick i c) bl br
    | .bottomLeft => .node ctr h d objs tl tr (bl.insertWith pick i c) br
    | .bottomRight => .node ctr h d objs tl tr bl (br.insertWith pick i c)

/-- `Quad::insert` as written in the source (the last-match-wins scan). -/
def Quad.insert (q : Quad) (i : Nat) (c : Circle) : Quad :=
  q.insertWith lastMatchGeom i c

/-- `Quad::isOverlapping` (quadtree.cpp lines 463-476), verbatim: note that
the comparisons add the top-left and bottom-right corner COORDINATES of the
two boxes (`quadTopLeft.x + quadBottomRight.x` and so on) where the MDN
reference cited by the source uses a corner plus a WIDTH. -/
def isOverlapping (c : Circle) (q : Quad) : Bool :=
  let circleTopLeft : Vec2 := ⟨c.position.x - c.radius, c.position.y - c.radius⟩
  let circleBottomRight : Vec2 := ⟨c.position.x + c.radius, c.position.y + c.radius⟩
  let quadTopLeft : Vec2 := ⟨q.center.x - q.halfWidth, q.center.y - q.halfWidth⟩
  let quadBottomRight : Vec2 := ⟨q.center.x + q.halfWidth, q.center.y + q.halfWidth⟩
  decide (circleTopLeft.x < quadTopLeft.x + quadBottomRight.x) &&
  decide (circleTopLeft.x + circleBottomRight.x > quadTopLeft.x) &&
  decide (circleTopLeft.y < quadTopLeft.y + quadBottomRight.y) &&
  decide (circleTopLeft.y + circleBottomRight.y > quadTopLeft.y)

/-- `Quad::getObjectsForCollisionCheck` (quadtree.cpp lines 260-305): prune
the node if `isOverlapping` fails, return the stored objects at the depth
cap, and otherwise collect the recursive results of overlapping children
followed by the node's own objects. -/
def Quad.query : Quad → Circle → List Nat
  | q@(.leaf _ _ _ objs), c =>
    if !isOverlapping c q then [] else objs
  | q@(.node _ _ _ objs tl tr bl br), c =>
    if !isOverlapping c q then []
    else
      (if isOverlapping c tl then tl.query c else []) ++
      (if isOverlapping c tr then tr.query c else []) ++
      (if isOverlapping c bl then bl.query c else []) ++
      (if isOverlapping c br then br.query c else []) ++
      objs

/-- Every object reference stored anywhere in the tree. -/
def Quad.allObjects : Quad → List Nat
  | .leaf _ _ _ objs => objs
  | .node _ _ _ objs tl tr bl br =>
    objs ++ tl.allObjects ++ tr.allObjects ++ bl.allObjects ++ br.allObjects

/-- Replace the circle at index `i` of the simulation state by `f` of it
(the effect of a C++ write through the stored pointer `circles[i]`). -/
def upd (st : List Circle) (i : Nat) (f : Circle → Circle) : List Circle :=
  st.set i (f (st.getD i default))

/-- The candidate loop of `Circle::handleCircleCollision` in `quadtree.cpp`
run on the shared state: `a = this` is the circle at `selfIdx`, the candidate
pointer list is `cands`, `if (a == b) continue;` skips the entry aliasing
`a` itself, and both sides of each resolved pair are written back through
their pointers. -/
def quadHandleCandidates (selfIdx : Nat) (cands : List Nat)
    (st : List Circle) : List Circle :=
  cands.foldl (fun st j =>
    if j = selfIdx then st
    else
      let p := quadResolvePair (st.getD selfIdx default) (st.getD j default)
      (st.set selfIdx p.1).set j p.2) st

/-- `Quad::update` (quadtree.cpp lines 437-459) threaded over the shared
circle state: at each node, every stored circle first resolves collisions
against `quad->getObjectsForCollisionCheck` of its own node (its `quad`
back-pointer is the node it is stored at) and then handles edge collisions;
afterwards the four children are visited in order. -/
def Quad.updatePass : Quad → List Circle → List Circle
  | q@(.leaf _ _ _ objs), st =>
    objs.foldl (fun st i =>
      let st1 := quadHandleCandidates i (q.query (st.getD i default)) st
      upd st1 i handleEdgeCollision) st
  | q@(.node _ _ _ objs tl tr bl br), st =>
    let st1 := objs.foldl (fun st i =>
      let st1 := quadHandleCandidates i (q.query (st.getD i default)) st
      upd st1 i handleEdgeCollision) st
    br.updatePass (bl.updatePass (tr.updatePass (tl.updatePass st1)))

/-- One fixed-timestep physics tick of `quadtree.cpp`'s main loop
(lines 540-551): clear the tree, then for each circle in order run
`update()` and insert it (the insertion of a circle reads nothing of any
other circle, so the interleaved loop equals integrating every circle first
and then inserting every circle), then run `quadtree.update()`. -/
def quadTick (cs : List Circle) : List Circle :=
  let moved := cs.map (fun c => quadUpdate c ⟨0, 0⟩)
  let tree := (List.range moved.length).foldl
    (fun t i => t.insert i (moved.getD i default)) rootQuad
  tree.updatePass moved

/-- `Circle::convertToGridPosition` (unigrid.cpp lines 223-227):
`floor(coordinate / GRID_SIZE)` per axis.  The source keeps the result in a
float `Vector2`; the values are integral and are consumed as C++ `int`s, so
the embedding produces the integer pair directly. -/
def convertToGridPosition (v : Vec2) : ℤ × ℤ :=
  (⌊v.x / GRID_SIZE⌋, ⌊v.y / GRID_SIZE⌋)

/-- Ascending loop range: the values taken by `for (int i = a; i <= b; i++)`. -/
def intRangeAsc (a b : ℤ) : List ℤ :=
  (List.range (b + 1 - a).toNat).map (fun (k : ℕ) => a + (k : ℤ))

/-- Descending loop range: the values taken by `for (int j = a; j >= b; j--)`. -/
def intRangeDesc (a b : ℤ) : List ℤ :=
  (List.range (a + 1 - b).toNat).map (fun (k : ℕ) => a - (k : ℤ))

/-- `Circle::refreshGridPositions` (unigrid.cpp lines 184-208): the circle's
AABB corners `min = (x - r, y + r)` and `max = (x + r, y - r)` are converted
to grid coordinates; a circle whose two corner cells coincide occupies that
single cell, and otherwise every `(i, j)` with `i` ascending from `min` to
`max` and `j` descending from `min` to `max` is recorded.  Each pair is
`(gridX, gridY) = (column, row)`. -/
def refreshGridPositions (c : Circle) : List (ℤ × ℤ) :=
  let mn := convertToGridPosition ⟨c.position.x - c.radius, c.position.y + c.radius⟩
  let mx := convertToGridPosition ⟨c.position.x + c.radius, c.position.y - c.radius⟩
  if mn = mx then [mn]
  else (intRangeAsc mn.1 mx.1).flatMap (fun i => (intRangeDesc mn.2 mx.2).map (fun j => (i, j)))

/-- Conversion of a C++ `int` to `size_t` (as in `gridY < cells.size()`): the
signed value is taken modulo `2^64`, so a negative coordinate becomes a huge
unsigned one. -/
def intToSizeT (i : ℤ) : ℕ := (i % (2 : ℤ) ^ 64).toNat

/-- Number of iterations of a `for (j = start; j < bound; j += step)` loop,
with fuel. -/
def loopSteps : Nat → ℕ → ℕ → ℕ → ℕ
  | 0, _, _, _ => 0
  | fuel+1, j, bound, step => if j < bound then loopSteps fuel (j + step) bound step + 1 else 0

/-- Number of rows pushed by the `UniformGrid` constructor (unigrid.cpp lines
259-268): one per `i = 0, 60, ..., < 720`, i.e. 12. -/
def gridRowCount : ℕ := loopSteps 720 0 720 60

/-- Number of cells per row pushed by the `UniformGrid` constructor: one per
`j = 0, 60, ..., < 1280`, i.e. 22 (the last cell starts at 1260 and pokes
past the window edge). -/
def gridColCount : ℕ := loopSteps 1280 0 1280 60

/-- The guard of `refreshCellObjects` (unigrid.cpp lines 297-298):
`gridY < uniformGrid->cells.size() && gridX < uniformGrid->cells[0].size()`.
Both comparisons put a signed `int` against an unsigned `size_t`, so the int
is converted first; a negative coordinate wraps to a huge value and fails. -/
def cellGuard (gy gx : ℤ) : Bool :=
  decide (intToSizeT gy < gridRowCount) && decide (intToSizeT gx < gridColCount)

/-- The grid of `UniformGrid` after `clearCells`: `gridRowCount` rows of
`gridColCount` cells, each cell's object list empty.  Only the object lists
are modelled; each cell's `topLeft`/`size` geometry is fixed by its indices. -/
def emptyCells : List (List (List Nat)) :=
  List.replicate gridRowCount (List.replicate gridColCount ([] : List Nat))

/-- One guarded registration `cells[gridY][gridX].objects.push_back(objects[i])`
of `refreshCellObjects` (unigrid.cpp lines 296-301). -/
def registerAt (cells : List (List (List Nat))) (gy gx : ℤ) (i : Nat) :
    List (List (List Nat)) :=
  if cellGuard gy gx then
    let r := intToSizeT gy
    let col := intToSizeT gx
    let row := cells.getD r []
    cells.set r (row.set col ((row.getD col []) ++ [i]))
  else cells

/-- `refreshCellObjects` (unigrid.cpp lines 288-304): clear every cell, then
walk each object's `gridPositions` (whose entries are `(gridX, gridY)`) and
register the object in each cell passing the guard. -/
def buildCells (objs : List Circle) : List (List (List Nat)) :=
  (List.range objs.length).foldl (fun cells i =>
    (refreshGridPositions (objs.getD i default)).foldl
      (fun cells p => registerAt cells p.2 p.1 i) cells) emptyCells

/-- The `(row, column)` cells a single circle is registered in by
`refreshCellObjects`: its grid positions filtered through the guard, indices
converted exactly as the container subscripts convert them. -/
def registeredCellsOf (c : Circle) : List (ℕ × ℕ) :=
  (refreshGridPositions c).filterMap (fun p =>
    if cellGuard p.2 p.1 then some (intToSizeT p.2, intToSizeT p.1) else none)

/-- The trace of `(row, column)` subscripts at which `refreshCellObjects`
actually touches `cells[gridY][gridX]` over a whole object list. -/
def refreshCellAccesses (objs : List Circle) : List (ℕ × ℕ) :=
  objs.flatMap registeredCellsOf

/-- The inner loop of unigrid's `Circle::handleCircleCollision` called with
the default `idx = -1` (iterator starts at 0): `a = this` (the circle at
`selfIdx`, accumulated through the loop because the source writes
`a->velocity` in place) resolves against `Circle b = *circles[j]` for every
`j`, including `a` itself, each `b` read through its pointer from the shared
state at the moment of the iteration. -/
def unigridHandleAgainstAll (a : Circle) (selfIdx : Nat) (cell : List Nat)
    (st : List Circle) : Circle :=
  cell.foldl (fun acc j =>
    unigridResolveAgainst acc (if j = selfIdx then acc else st.getD j default)) a

/-- The per-cell body of unigrid's main collision loop (unigrid.cpp lines
377-389): skip an empty cell; compute `shouldHandleCircleCollision`
(false when the cell holds fewer than 2 objects); then for each object in
the cell, run `handleCircleCollision(objects)` when the flag is set and
`handleEdgeCollision()` always. -/
def unigridHandleCell (st : List Circle) (cell : List Nat) : List Circle :=
  if cell.isEmpty then st
  else
    cell.foldl (fun st i =>
      let st1 := if cell.length < 2 then st
        else upd st i (fun a => unigridHandleAgainstAll a i cell st)
      upd st1 i handleEdgeCollision) st

/-- The full cell sweep of unigrid's main collision loop: rows in order, then
cells within the row. -/
def unigridCollisionPass (cells : List (List (List Nat))) (st : List Circle) :
    List Circle :=
  cells.foldl (fun st row => row.foldl unigridHandleCell st) st

/-- One fixed-timestep physics tick of `unigrid.cpp`'s main loop (lines
367-391): move every object first, re-add the objects into the cells, then
sweep every cell handling circle and edge collisions. -/
def unigridTick (cs : List Circle) : List Circle :=
  let moved := cs.map (fun c => unigridUpdate c ⟨0, 0⟩)
  unigridCollisionPass (buildCells moved) moved

/-- The multiset of ordered index pairs `(a, b)` subjected to the
circle-circle overlap test during one unigrid cell sweep: for every cell
with at least two objects (otherwise `handleCircleCollision` is not called),
every stored object `a` is tested against every stored object `b`, itself
included, in loop order. -/
def pairTestTrace (cells : List (List (List Nat))) : List (Nat × Nat) :=
  cells.flatMap (fun row => row.flatMap (fun cell =>
    if cell.length < 2 then []
    else cell.flatMap (fun i => cell.map (fun j => (i, j)))))

/-- `Circle::handleCircleCollision` of `main.cpp` for `a = this` against the
by-value snapshot `circles` taken when the call was made: each entry is
resolved in order against the accumulating `a` (the never-firing
`a == &b` self-test and the discarded writes to the copy `b` live inside
`mainResolveAgainst`). -/
def mainHandleAgainst (a : Circle) (bs : List Circle) : Circle :=
  bs.foldl mainResolveAgainst a

/-- One physics tick of `main.cpp`'s loop (lines 229-245): for each small
circle in order, `update()` then `handleCircleCollision(smallCircles)` (the
live vector, copied at the call, so already-processed circles appear with
this tick's state and later circles with last tick's state) then
`handleCircleCollision(bigCircles)` then `handleEdgeCollision()`; afterwards
the same sequence for each big circle against the finished small list. -/
def mainTick (smalls bigs : List Circle) : List Circle × List Circle :=
  let s1 := (List.range smalls.length).foldl (fun st i =>
    let st1 := upd st i (fun c => mainUpdate c ⟨0, 0⟩)
    let st2 := upd st1 i (fun c => mainHandleAgainst c st1)
    let st3 := upd st2 i (fun c => mainHandleAgainst c bigs)
    upd st3 i mainHandleEdgeCollision) smalls
  let b1 := (List.range bigs.length).foldl (fun st i =>
    let st1 := upd st i (fun c => mainUpdate c ⟨0, 0⟩)
    let st2 := upd st1 i (fun c => mainHandleAgainst c s1)
    let st3 := upd st2 i (fun c => mainHandleAgainst c st2)
    upd st3 i mainHandleEdgeCollision) bigs
  (s1, b1)

/-- Modelled from the spec (section 5 ordering guarantee): the tick that
`main.cpp` would perform if every body's integration completed before any
collision was evaluated — all updates hoisted ahead, the collision and edge
sequence unchanged. -/
def mainTickIntegrateFirst (smalls bigs : List Circle) : List Circle × List Circle :=
  let ms := smalls.map (fun c => mainUpdate c ⟨0, 0⟩)
  let mb := bigs.map (fun c => mainUpdate c ⟨0, 0⟩)
  let s1 := (List.range ms.length).foldl (fun st i =>
    let st2 := upd st i (fun c => mainHandleAgainst c st)
    let st3 := upd st2 i (fun c => mainHandleAgainst c mb)
    upd st3 i mainHandleEdgeCollision) ms
  let b1 := (List.range mb.length).foldl (fun st i =>
    let st2 := upd st i (fun c => mainHandleAgainst c s1)
    let st3 := upd st2 i (fun c => mainHandleAgainst c st2)
    upd st3 i mainHandleEdgeCollision) mb
  (s1, b1)

/-- Modelled from the spec (section 3, uniform-grid cell invariant; section 8
"Grid coverage invariant"): cell `(row, col)` of the 60-unit lattice — read as
the half-open square `[60*col, 60*col + 60) × [60*row, 60*row + 60)` — has a
point in common with the body's closed AABB
`[position - radius, position + radius]`.  Stated from the spec's words for
comparison with the source's `refreshGridPositions`/`refreshCellObjects`
registration. -/
def cellRegionMeetsAABB (row col : ℕ) (c : Circle) : Prop :=
  (col : ℚ) * GRID_SIZE ≤ c.position.x + c.radius ∧
  c.position.x - c.radius < (col : ℚ) * GRID_SIZE + GRID_SIZE ∧
  (row : ℚ) * GRID_SIZE ≤ c.position.y + c.radius ∧
  c.position.y - c.radius < (row : ℚ) * GRID_SIZE + GRID_SIZE


/-! Concrete bodies used by the closed evaluations below. -/

/-- Radius-10 circle at `(100, 20)`, at rest. -/
def cOverlapA : Circle := ⟨10, 1, ⟨0, 0⟩, ⟨0, 0⟩, ⟨100, 20⟩, ⟨100, 20⟩⟩

/-- Radius-10 circle at `(110, 20)`, at rest; its center is 10 < 20 away from
`cOverlapA`, so the two circles overlap. -/
def cOverlapB : Circle := ⟨10, 1, ⟨0, 0⟩, ⟨0, 0⟩, ⟨110, 20⟩, ⟨110, 20⟩⟩

/-- The spec's collision scenario, first body: radius 10, mass 1, position
`(100,100)`, velocity `(10,0)`. -/
def cHeadOnA : Circle := ⟨10, 1, ⟨0, 0⟩, ⟨10, 0⟩, ⟨100, 100⟩, ⟨100, 100⟩⟩

/-- The spec's collision scenario, second body: radius 10, mass 1, position
`(115,100)`, velocity `(-10,0)`. -/
def cHeadOnB : Circle := ⟨10, 1, ⟨0, 0⟩, ⟨-10, 0⟩, ⟨115, 100⟩, ⟨115, 100⟩⟩

/-- Radius-10 circle at `(100,100)` moving right at 60 units/s (one unit per
tick). -/
def cFast0 : Circle := ⟨10, 1, ⟨0, 0⟩, ⟨60, 0⟩, ⟨100, 100⟩, ⟨100, 100⟩⟩

/-- Radius-10 circle at `(130,100)` moving left at 600 units/s (ten units per
tick): after integration it overlaps `cFast0`, before integration it does
not. -/
def cFast1 : Circle := ⟨10, 1, ⟨0, 0⟩, ⟨-600, 0⟩, ⟨130, 100⟩, ⟨130, 100⟩⟩

/-- Radius-5 circle at rest at `(90, 90)`: occupies exactly grid cell
`(1, 1)`. -/
def cCell0 : Circle := ⟨5, 1, ⟨0, 0⟩, ⟨0, 0⟩, ⟨90, 90⟩, ⟨90, 90⟩⟩

/-- Radius-5 circle at rest at `(100, 90)`: also occupies exactly grid cell
`(1, 1)`, touching `cCell0`. -/
def cCell1 : Circle := ⟨5, 1, ⟨0, 0⟩, ⟨0, 0⟩, ⟨100, 90⟩, ⟨100, 90⟩⟩

/-- The spec's edge scenario: radius 10 at `(5, 100)` with velocity
`(-50, 0)`, about to cross the left boundary. -/
def cLeftEdge : Circle := ⟨10, 1, ⟨0, 0⟩, ⟨-50, 0⟩, ⟨5, 100⟩, ⟨5, 100⟩⟩

/-- Radius-10 circle whose AABB lies entirely left of the grid
(position `(-100, 100)`). -/
def cOutsideGrid : Circle := ⟨10, 1, ⟨0, 0⟩, ⟨0, 0⟩, ⟨-100, 100⟩, ⟨-100, 100⟩⟩

/-- Radius-10 circle well inside the grid at `(100, 100)`. -/
def cInsideGrid : Circle := ⟨10, 1, ⟨0, 0⟩, ⟨0, 0⟩, ⟨100, 100⟩, ⟨100, 100⟩⟩

/-- Circle whose velocity `(3, 0)` is below the deadzone threshold. -/
def cSlowA : Circle := ⟨10, 1, ⟨0, 0⟩, ⟨3, 0⟩, ⟨200, 200⟩, ⟨200, 200⟩⟩

/-- Circle identical to `cSlowA` except for its velocity `(4, 0)`, also below
the deadzone threshold; integration maps both to the same state. -/
def cSlowB : Circle := ⟨10, 1, ⟨0, 0⟩, ⟨4, 0⟩, ⟨200, 200⟩, ⟨200, 200⟩⟩

/-- A big circle: radius 25, mass 10 (the `BIG_CIRCLE_RADIUS` and
`BIG_CIRCLE_MASS` constants). -/
def cBigPush : Circle := ⟨25, 10, ⟨0, 0⟩, ⟨7, 0⟩, ⟨640, 360⟩, ⟨640, 360⟩⟩

set_option maxHeartbeats 4000000 in
/-- C1: the claim requires that for every pair of truly overlapping bodies at
least one appears in the other's broad-phase query result.  The quadtree
variant violates it: the circles `cOverlapA` and `cOverlapB` overlap
(center distance 10, radius sum 20) and both are inserted into the tree, yet
querying the whole tree for either circle returns the empty candidate list,
because `Quad::isOverlapping` deviates from the AABB-overlap predicate its
own comment and MDN citation describe (it sums corner coordinates where the
reference uses a corner plus a width), and so prunes the populated subtree.
The per-tick call site queries from the circle's own node, whose result list
is a subset of the nodes visited here, so the miss holds there a fortiori. -/
theorem C1_quadtree_query_misses_overlapping_pair :
    collisionDetected cOverlapA cOverlapB = true ∧
    ((rootQuad.insert 0 cOverlapA).insert 1 cOverlapB).allObjects = [0, 1] ∧
    ((rootQuad.insert 0 cOverlapA).insert 1 cOverlapB).query cOverlapA = [] ∧
    ((rootQuad.insert 0 cOverlapA).insert 1 cOverlapB).query cOverlapB = [] := by
  refine ⟨by norm_num [collisionDetected, vector2DistanceSqr, cOverlapA, cOverlapB], ?_, ?_, ?_⟩ <;>
  norm_num [rootQuad, mkQuad, MAX_DEPTH, Quad.insert, Quad.insertWith, lastMatchGeom,
    canContainCircle, Quad.query, Quad.allObjects, isOverlapping, Quad.center, Quad.halfWidth,
    cOverlapA, cOverlapB]

/-- C9: the claim asserts `acceleration = appliedForce / mass` for every mass
including the large-body mass 10.  The sources compute
`Vector2Scale(force, 1 / mass)` where `1 / mass` is an `int` division, so a
big circle (mass 10) pushed with force `(10, 0)` gets acceleration `(0, 0)`
rather than the claimed `(10, 0) / 10 = (1, 0)` — in both the quadtree and
unigrid integrators.  (The same files divide as `1.0f / mass` inside
`getImpulse`, so the spec's reading is clearly the intent.) -/
theorem C9_big_mass_acceleration_is_zero :
    (quadUpdate cBigPush ⟨10, 0⟩).acceleration = ⟨0, 0⟩ ∧
    (unigridUpdate cBigPush ⟨10, 0⟩).acceleration = ⟨0, 0⟩ ∧
    vector2Scale ⟨10, 0⟩ (1 / (cBigPush.mass : ℚ)) = ⟨1, 0⟩ ∧
    (⟨1, 0⟩ : Vec2) ≠ (⟨0, 0⟩ : Vec2) := by
  refine ⟨?_, ?_, ?_, ?_⟩ <;>
  norm_num [quadUpdate, unigridUpdate, vector2Scale, vector2Add, cBigPush,
    FRICTION_unigrid, TIMESTEP, VELOCITY_THRESHOLD, Vec2.mk.injEq]

/-- C6 counterexample: the claim (citing `main.cpp` among its sources)
requires that an out-of-bounds body has its `previousPosition` restored, and
in the spec scenario expects the body back at its pre-step position `(5,100)`.
In the naive variant the `Circle` struct has no previous position at all:
after one `main.cpp` tick, `cLeftEdge` has the claimed velocity `(50, 0)` but
remains at the integrated position `(25/6, 100)`, not the pre-step
`(5, 100)`. -/
theorem C6_naive_tick_does_not_restore_position :
    ((mainTick [cLeftEdge] []).1.map Circle.velocity = [⟨50, 0⟩]) ∧
    ((mainTick [cLeftEdge] []).1.map Circle.position = [⟨25/6, 100⟩]) ∧
    ((⟨25/6, 100⟩ : Vec2) ≠ cLeftEdge.position) := by
  refine ⟨?_, ?_, ?_⟩ <;>
  norm_num [mainTick, mainUpdate, mainHandleAgainst, mainResolveAgainst,
    mainHandleEdgeCollision, collisionDetected, approaching, getImpulse,
    vector2Add, vector2Subtract, vector2Scale, vector2DotProduct, vector2DistanceSqr,
    vector2Normalize, ratSqrtOpt, upd, List.range_succ,
    TIMESTEP, VELOCITY_THRESHOLD, ELASTICITY_naive, WINDOW_WIDTH, WINDOW_HEIGHT,
    cLeftEdge, Vec2.mk.injEq]

set_option maxHeartbeats 4000000 in
/-- C4 counterexample: the claim (citing the `main.cpp` physics loop among
its sources) requires every body to be integrated before any collision is
evaluated.  The naive tick instead runs update-then-collide per body: with
`cFast0` and `cFast1`, the code tick leaves `cFast0`'s velocity untouched at
`(60, 0)` — when `cFast0` was processed, `cFast1` still sat at its
pre-integration position 29 units away, outside overlap range — whereas the
integrate-all-first tick the claim describes yields `(-435, 0)` for `cFast0`,
because both post-integration positions are 19 units apart and overlap.  The
two ticks therefore disagree, so the naive variant's collision tests read a
mix of old and new positions. -/
theorem C4_naive_tick_reads_preintegration_positions :
    ((mainTick [cFast0, cFast1] []).1.map Circle.velocity = [⟨60, 0⟩, ⟨-105, 0⟩]) ∧
    ((mainTickIntegrateFirst [cFast0, cFast1] []).1.map Circle.velocity =
      [⟨-435, 0⟩, ⟨-1905/4, 0⟩]) ∧
    (([⟨60, 0⟩, ⟨-105, 0⟩] : List Vec2) ≠ [⟨-435, 0⟩, ⟨-1905/4, 0⟩]) := by
  refine ⟨?_, ?_, ?_⟩ <;>
  norm_num [mainTick, mainTickIntegrateFirst, mainUpdate, mainHandleAgainst,
    mainResolveAgainst, mainHandleEdgeCollision, collisionDetected, approaching,
    getImpulse, vector2Add, vector2Subtract, vector2Scale, vector2DotProduct,
    vector2DistanceSqr, vector2Normalize, ratSqrtOpt, upd, List.range_succ,
    TIMESTEP, VELOCITY_THRESHOLD, ELASTICITY_naive, WINDOW_WIDTH, WINDOW_HEIGHT,
    cFast0, cFast1, Vec2.mk.injEq]

set_option maxHeartbeats 1000000 in
/-- C5 counterexample: the claim requires each unordered pair of candidates
to be overlap-tested exactly once per tick with no self-pairing.  With two
touching circles that share the single cell `(1, 1)`, the unigrid cell sweep
tests the ordered pairs `(0,0), (0,1), (1,0), (1,1)`: the unordered pair
`{0, 1}` is tested twice (`handleCircleCollision` starts its loop at index 0
for every member of the cell) and each body is also tested against itself
(the `a == &b` guard is commented out in the source). -/
theorem C5_unigrid_tests_pairs_twice_and_self :
    pairTestTrace (buildCells ([cCell0, cCell1].map (fun c => unigridUpdate c ⟨0, 0⟩))) =
      [(0, 0), (0, 1), (1, 0), (1, 1)] ∧
    ([(0, 0), (0, 1), (1, 0), (1, 1)] : List (ℕ × ℕ)).count (0, 1) +
      ([(0, 0), (0, 1), (1, 0), (1, 1)] : List (ℕ × ℕ)).count (1, 0) = 2 ∧
    ((0, 0) ∈ ([(0, 0), (0, 1), (1, 0), (1, 1)] : List (ℕ × ℕ))) := by
  refine ⟨?_, by decide, by decide⟩
  have hm : [cCell0, cCell1].map (fun c => unigridUpdate c ⟨0, 0⟩) = [cCell0, cCell1] := by
    norm_num [unigridUpdate, vector2Add, vector2Scale, FRICTION_unigrid, TIMESTEP,
      VELOCITY_THRESHOLD, cCell0, cCell1, Circle.mk.injEq, Vec2.mk.injEq]
  have h0 : refreshGridPositions cCell0 = [(1, 1)] := by
    norm_num [refreshGridPositions, convertToGridPosition, GRID_SIZE, cCell0]
  have h1 : refreshGridPositions cCell1 = [(1, 1)] := by
    norm_num [refreshGridPositions, convertToGridPosition, GRID_SIZE, cCell1]
  rw [hm, buildCells]
  simp only [List.length_cons, List.length_nil, List.range_succ, List.range_zero,
    List.nil_append, List.cons_append, List.foldl_cons, List.foldl_nil,
    List.getD_cons_zero, List.getD_cons_succ, h0, h1]
  decide

/-- C7 counterexample: the claim requires a body whose AABB exceeds the
grid's bounds to be clamped into the valid coordinate range and never
dropped from the index.  `cOutsideGrid` (AABB entirely left of the grid)
computes the single grid position `(-2, 1)`; the guard of
`refreshCellObjects` converts the negative column to a huge `size_t` and
skips it, so the body is registered in no cell at all — dropped, not
clamped. -/
theorem C7_body_outside_grid_is_dropped :
    refreshGridPositions cOutsideGrid = [(-2, 1)] ∧
    registeredCellsOf cOutsideGrid = [] := by
  have h : refreshGridPositions cOutsideGrid = [(-2, 1)] := by
    norm_num [refreshGridPositions, convertToGridPosition, GRID_SIZE, cOutsideGrid]
  refine ⟨h, ?_⟩
  rw [registeredCellsOf, h]
  decide

set_option maxHeartbeats 1000000 in
/-- C2 counterexample: the claim asserts that the pairwise resolution step
writes the impulse into BOTH bodies' stored velocities.  Running the unigrid
pair block for `cHeadOnA` against the cell `[0, 1]` updates the stored
`cHeadOnA` to velocity `(-10, 0)`, but the stored partner is bit-for-bit
unchanged — the source's `Circle b = *circles[i];` copies the partner by
value and the `b.velocity -= ...` write dies with the copy — even though the
claimed symmetric update would change the partner's velocity from `(-10, 0)`
to `(10, 0)` (as the both-sided `quadResolvePair` of the pointer-based
variant shows). -/
theorem C2_unigrid_partner_not_written :
    (upd [cHeadOnA, cHeadOnB] 0
        (fun x => unigridHandleAgainstAll x 0 [0, 1] [cHeadOnA, cHeadOnB])) =
      [{ cHeadOnA with velocity := ⟨-10, 0⟩ }, cHeadOnB] ∧
    (quadResolvePair cHeadOnA cHeadOnB).2.velocity = ⟨10, 0⟩ ∧
    (⟨10, 0⟩ : Vec2) ≠ cHeadOnB.velocity := by
  refine ⟨?_, ?_, ?_⟩ <;>
  norm_num [upd, unigridHandleAgainstAll, unigridResolveAgainst, quadResolvePair,
    collisionDetected, approaching, getImpulse, vector2Add, vector2Subtract,
    vector2Scale, vector2DotProduct, vector2DistanceSqr, ELASTICITY_grid,
    cHeadOnA, cHeadOnB, Vec2.mk.injEq, Circle.mk.injEq]

theorem unigridResolveAgainst_self (c : Circle) : unigridResolveAgainst c c = c := by
  simp [unigridResolveAgainst, approaching, vector2Subtract, vector2DotProduct, sub_self]

/-- Counting occurrences of a pair in a map that fixes the first component. -/
theorem count_pair_map (x a b : ℕ) (l : List ℕ) :
    (l.map (fun j => (x, j))).count (a, b) = if x = a then l.count b else 0 := by
  induction l with
  | nil => simp
  | cons y ys ih =>
    simp only [List.map_cons, List.count_cons, ih, Prod.mk.injEq]
    by_cases hx : x = a <;> by_cases hy : y = b <;> simp [hx, hy]

/-- The all-ordered-pairs product of two lists contains `(a, b)` once per
occurrence of `a` in the first and `b` in the second. -/
theorem count_pair_product (a b : ℕ) (l1 l2 : List ℕ) :
    (l1.flatMap (fun i => l2.map (fun j => (i, j)))).count (a, b) = l1.count a * l2.count b := by
  induction l1 with
  | nil => simp
  | cons x xs ih =>
    simp only [List.flatMap_cons, List.count_append, ih, count_pair_map, List.count_cons]
    by_cases hx : x = a <;> simp [hx, Nat.succ_mul, Nat.add_comm]

/-- Row-level count of overlap tests of an ordered pair during the unigrid
cell sweep. -/
theorem count_pairTests_row (a b : ℕ) (row : List (List ℕ)) :
    ((row.flatMap (fun cell => if cell.length < 2 then [] else
        cell.flatMap (fun i => cell.map (fun j => (i, j))))).count (a, b)) =
      (row.map (fun cell => if cell.length < 2 then 0 else cell.count a * cell.count b)).sum := by
  induction row with
  | nil => simp
  | cons cell cells ih =>
    simp only [List.flatMap_cons, List.count_append, List.map_cons, List.sum_cons, ih]
    by_cases h : cell.length < 2 <;> simp [h, count_pair_product]

/-- C5 (amended): during one unigrid tick, for every cell holding at least
two bodies, EVERY ordered pair of its occupants — self-pairs included — is
subjected to the overlap test once: the number of tests of the ordered pair
`(a, b)` equals the sum over cells of `(occurrences of a) * (occurrences of
b)`, so an unordered pair sharing `k` cells is tested `2k` times rather than
exactly once, and every body is tested against itself; the self-test never
alters the body because the zero collision normal fails the approach gate. -/
theorem C5_pair_tests_counted_per_cell_and_self_test_harmless :
    (∀ (cells : List (List (List ℕ))) (a b : ℕ),
        (pairTestTrace cells).count (a, b) =
          (cells.map (fun row => (row.map (fun cell =>
            if cell.length < 2 then 0 else cell.count a * cell.count b)).sum)).sum) ∧
    (∀ c : Circle, unigridResolveAgainst c c = c) := by
  constructor
  · intro cells a b
    induction cells with
    | nil => simp [pairTestTrace]
    | cons row rows ihr =>
      simp only [pairTestTrace, List.flatMap_cons, List.count_append, List.map_cons,
        List.sum_cons] at ihr ⊢
      rw [ihr, count_pairTests_row]
  · exact unigridResolveAgainst_self

/-- C4 (amended): in the uniform-grid and quadtree variants, every body is
integrated before any pairwise or edge collision is evaluated: the whole tick
reads the pre-tick states only through their integrated images, so two
body lists with equal post-integration states produce identical ticks.  (The
naive `main.cpp` variant interleaves integration with collision handling and
violates the original claim — see the counterexample.) -/
theorem C4_grid_and_quadtree_ticks_read_only_integrated_state :
    (∀ cs cs' : List Circle,
        cs.map (fun c => unigridUpdate c ⟨0, 0⟩) = cs'.map (fun c => unigridUpdate c ⟨0, 0⟩) →
        unigridTick cs = unigridTick cs') ∧
    (∀ cs cs' : List Circle,
        cs.map (fun c => quadUpdate c ⟨0, 0⟩) = cs'.map (fun c => quadUpdate c ⟨0, 0⟩) →
        quadTick cs = quadTick cs') := by
  constructor
  · intro cs cs' h
    simp only [unigridTick, h]
  · intro cs cs' h
    simp only [quadTick, h]

/-- C6 (amended): in the quadtree and uniform-grid variants, a body detected
out of bounds on an axis (position ± radius crossing that axis's boundary)
has its position restored to `oldPosition` and that axis's velocity component
negated; the X and Y tests are evaluated independently from the entry
position, so a corner collision negates both components, an in-bounds axis
keeps its component, and a fully in-bounds body is unchanged.  The spec's
scenario holds for these variants (see the witness); the naive variant lacks
the position restore (see the counterexample). -/
theorem C6_edge_collision_restores_and_reflects (c : Circle) :
    ((c.position.x ≥ WINDOW_WIDTH - c.radius ∨ c.position.x ≤ (c.radius : ℚ)) →
      (handleEdgeCollision c).position = c.oldPosition ∧
      (handleEdgeCollision c).velocity.x = -c.velocity.x) ∧
    ((c.position.y ≥ WINDOW_HEIGHT - c.radius ∨ c.position.y ≤ (c.radius : ℚ)) →
      (handleEdgeCollision c).position = c.oldPosition ∧
      (handleEdgeCollision c).velocity.y = -c.velocity.y) ∧
    (¬(c.position.x ≥ WINDOW_WIDTH - c.radius ∨ c.position.x ≤ (c.radius : ℚ)) →
      (handleEdgeCollision c).velocity.x = c.velocity.x) ∧
    (¬(c.position.y ≥ WINDOW_HEIGHT - c.radius ∨ c.position.y ≤ (c.radius : ℚ)) →
      (handleEdgeCollision c).velocity.y = c.velocity.y) ∧
    (¬(c.position.x ≥ WINDOW_WIDTH - c.radius ∨ c.position.x ≤ (c.radius : ℚ)) ∧
     ¬(c.position.y ≥ WINDOW_HEIGHT - c.radius ∨ c.position.y ≤ (c.radius : ℚ)) →
      handleEdgeCollision c = c) := by
  unfold handleEdgeCollision
  by_cases hx : (c.position.x ≥ WINDOW_WIDTH - c.radius ∨ c.position.x ≤ (c.radius : ℚ)) <;>
  by_cases hy : (c.position.y ≥ WINDOW_HEIGHT - c.radius ∨ c.position.y ≤ (c.radius : ℚ)) <;>
  simp only [Bool.or_eq_true, decide_eq_true_eq, if_pos, if_neg, hx, hy,
    not_false_eq_true, iff_true, iff_false, ite_true, ite_false, if_true, if_false] <;>
  simp [hx, hy, mul_neg_one]

/-- C2 (amended): on a detected overlap between approaching bodies, the
impulse magnitude is exactly the claimed
`-(1+e)·dot(rv, n) / (dot(n, n)·(1/mass_a + 1/mass_b))` with the unnormalized
center-to-center normal, and `a`'s stored velocity gains `(n/mass_a)·impulse`
exactly as the claim states — but the symmetric subtraction is applied to a
by-value copy of `b`, so after the pairwise resolution block the stored
partner is bit-for-bit unchanged (it is updated only when it later processes
the reversed pair itself). -/
theorem C2_unigrid_pair_resolution_updates_only_first (a b : Circle)
    (h1 : collisionDetected a b = true)
    (h2 : approaching (vector2Subtract a.velocity b.velocity)
        ⟨b.position.x - a.position.x, b.position.y - a.position.y⟩ = true) :
    upd [a, b] 0 (fun x => unigridHandleAgainstAll x 0 [0, 1] [a, b]) =
      [{ a with velocity :=
          ⟨a.velocity.x + (b.position.x - a.position.x) * (1 / (a.mass : ℚ)) *
              (-((1 + ELASTICITY_grid) *
                ((a.velocity.x - b.velocity.x) * (b.position.x - a.position.x) +
                 (a.velocity.y - b.velocity.y) * (b.position.y - a.position.y)) /
                (((b.position.x - a.position.x) * (b.position.x - a.position.x) +
                  (b.position.y - a.position.y) * (b.position.y - a.position.y)) *
                 (1 / (a.mass : ℚ) + 1 / (b.mass : ℚ))))),
           a.velocity.y + (b.position.y - a.position.y) * (1 / (a.mass : ℚ)) *
              (-((1 + ELASTICITY_grid) *
                ((a.velocity.x - b.velocity.x) * (b.position.x - a.position.x) +
                 (a.velocity.y - b.velocity.y) * (b.position.y - a.position.y)) /
                (((b.position.x - a.position.x) * (b.position.x - a.position.x) +
                  (b.position.y - a.position.y) * (b.position.y - a.position.y)) *
                 (1 / (a.mass : ℚ) + 1 / (b.mass : ℚ)))))⟩ },
       b] := by
  have hfold : unigridHandleAgainstAll a 0 [0, 1] [a, b] = unigridResolveAgainst a b := by
    simp [unigridHandleAgainstAll, unigridResolveAgainst_self]
  unfold upd
  simp only [List.getD_cons_zero]
  rw [hfold]
  unfold unigridResolveAgainst
  simp only [h1, if_true, ite_true]
  simp only [h2, if_true, ite_true]
  simp only [getImpulse, vector2DotProduct, vector2Subtract, vector2Add, vector2Scale,
    List.set, Circle.mk.injEq, Vec2.mk.injEq, List.cons.injEq, and_true, true_and]

/-- C3: for every equal-mass head-on collision on the x-axis with the
restitution 1 of the quadtree variant — any common mass, radii, speeds and
center positions satisfying the code's own overlap and approach tests — one
resolved collision exactly swaps the two x-velocities (the unnormalized
normal cancels), leaves the y-velocities zero, and preserves the combined
kinetic energy.  The spec's concrete scenario (radius 10, mass 1, positions
(100,100) and (115,100), velocities (10,0) and (-10,0)) is the witness, with
exact outcome velocities (-10,0) and (10,0). -/
theorem C3_equal_mass_head_on_swap (m ra rb : ℤ) (xa xb y va vb : ℚ) (hm : 0 < m)
    (hoverlap : (xb - xa) * (xb - xa) ≤ ((ra + rb : ℤ) : ℚ) * ((ra + rb : ℤ) : ℚ))
    (happroach : 0 < (va - vb) * (xb - xa)) :
    (quadResolvePair ⟨ra, m, ⟨0, 0⟩, ⟨va, 0⟩, ⟨xa, y⟩, ⟨xa, y⟩⟩
        ⟨rb, m, ⟨0, 0⟩, ⟨vb, 0⟩, ⟨xb, y⟩, ⟨xb, y⟩⟩).1.velocity = ⟨vb, 0⟩ ∧
    (quadResolvePair ⟨ra, m, ⟨0, 0⟩, ⟨va, 0⟩, ⟨xa, y⟩, ⟨xa, y⟩⟩
        ⟨rb, m, ⟨0, 0⟩, ⟨vb, 0⟩, ⟨xb, y⟩, ⟨xb, y⟩⟩).2.velocity = ⟨va, 0⟩ ∧
    (m : ℚ) * (((quadResolvePair ⟨ra, m, ⟨0, 0⟩, ⟨va, 0⟩, ⟨xa, y⟩, ⟨xa, y⟩⟩
          ⟨rb, m, ⟨0, 0⟩, ⟨vb, 0⟩, ⟨xb, y⟩, ⟨xb, y⟩⟩).1.velocity.x ^ 2 +
        (quadResolvePair ⟨ra, m, ⟨0, 0⟩, ⟨va, 0⟩, ⟨xa, y⟩, ⟨xa, y⟩⟩
          ⟨rb, m, ⟨0, 0⟩, ⟨vb, 0⟩, ⟨xb, y⟩, ⟨xb, y⟩⟩).1.velocity.y ^ 2)) +
      (m : ℚ) * (((quadResolvePair ⟨ra, m, ⟨0, 0⟩, ⟨va, 0⟩, ⟨xa, y⟩, ⟨xa, y⟩⟩
          ⟨rb, m, ⟨0, 0⟩, ⟨vb, 0⟩, ⟨xb, y⟩, ⟨xb, y⟩⟩).2.velocity.x ^ 2 +
        (quadResolvePair ⟨ra, m, ⟨0, 0⟩, ⟨va, 0⟩, ⟨xa, y⟩, ⟨xa, y⟩⟩
          ⟨rb, m, ⟨0, 0⟩, ⟨vb, 0⟩, ⟨xb, y⟩, ⟨xb, y⟩⟩).2.velocity.y ^ 2)) =
      (m : ℚ) * (va ^ 2 + 0 ^ 2) + (m : ℚ) * (vb ^ 2 + 0 ^ 2) := by
  have hd : xb - xa ≠ 0 := by
    intro h0
    rw [h0, mul_zero] at happroach
    exact lt_irrefl 0 happroach
  have hm2 : (m : ℚ) ≠ 0 := by
    have h0 : (0 : ℚ) < (m : ℚ) := by exact_mod_cast hm
    exact ne_of_gt h0
  have h1 : collisionDetected ⟨ra, m, ⟨0, 0⟩, ⟨va, 0⟩, ⟨xa, y⟩, ⟨xa, y⟩⟩
      ⟨rb, m, ⟨0, 0⟩, ⟨vb, 0⟩, ⟨xb, y⟩, ⟨xb, y⟩⟩ = true := by
    simp only [collisionDetected, vector2DistanceSqr, decide_eq_true_eq, ge_iff_le]
    have hy0 : (y - y) * (y - y) = 0 := by ring
    rw [hy0]
    linarith
  have h2 : approaching (vector2Subtract (⟨va, 0⟩ : Vec2) ⟨vb, 0⟩) ⟨xb - xa, y - y⟩ = true := by
    simp only [approaching, vector2Subtract, vector2DotProduct, decide_eq_true_eq]
    have he : (va - vb) * (xb - xa) + (0 - 0) * (y - y) = (va - vb) * (xb - xa) := by ring
    rw [he]
    exact happroach
  have hsw : (quadResolvePair ⟨ra, m, ⟨0, 0⟩, ⟨va, 0⟩, ⟨xa, y⟩, ⟨xa, y⟩⟩
        ⟨rb, m, ⟨0, 0⟩, ⟨vb, 0⟩, ⟨xb, y⟩, ⟨xb, y⟩⟩).1.velocity = ⟨vb, 0⟩ ∧
      (quadResolvePair ⟨ra, m, ⟨0, 0⟩, ⟨va, 0⟩, ⟨xa, y⟩, ⟨xa, y⟩⟩
        ⟨rb, m, ⟨0, 0⟩, ⟨vb, 0⟩, ⟨xb, y⟩, ⟨xb, y⟩⟩).2.velocity = ⟨va, 0⟩ := by
    unfold quadResolvePair
    simp only [h1, ite_true, if_true]
    simp only [h2, ite_true, if_true]
    simp only [getImpulse, vector2DotProduct, vector2Subtract, vector2Add, vector2Scale,
      Vec2.mk.injEq, ELASTICITY_grid]
    refine ⟨⟨?_, ?_⟩, ⟨?_, ?_⟩⟩ <;> field_simp <;> ring
  refine ⟨hsw.1, hsw.2, ?_⟩
  rw [hsw.1, hsw.2]
  show (m : ℚ) * (vb ^ 2 + 0 ^ 2) + (m : ℚ) * (va ^ 2 + 0 ^ 2) =
      (m : ℚ) * (va ^ 2 + 0 ^ 2) + (m : ℚ) * (vb ^ 2 + 0 ^ 2)
  ring

/-- A circle of positive radius cannot be fully contained in both a
left-column and a right-column child quadrant. -/
theorem canContain_left_right_exclusive (cx hw y1 y2 : ℚ) (c : Circle)
    (hr : 0 < c.radius)
    (h1 : canContainCircle ⟨cx - hw/2, y1⟩ (hw/2) c = true)
    (h2 : canContainCircle ⟨cx + hw/2, y2⟩ (hw/2) c = true) : False := by
  simp only [canContainCircle, Bool.and_eq_true, decide_eq_true_eq, ge_iff_le] at h1 h2
  have hc : (0 : ℚ) < (c.radius : ℚ) := by exact_mod_cast hr
  linarith [h1.1.2, h2.1.1.1]

/-- A circle of positive radius cannot be fully contained in both a top-row
and a bottom-row child quadrant. -/
theorem canContain_top_bottom_exclusive (cy hw x1 x2 : ℚ) (c : Circle)
    (hr : 0 < c.radius)
    (h1 : canContainCircle ⟨x1, cy - hw/2⟩ (hw/2) c = true)
    (h2 : canContainCircle ⟨x2, cy + hw/2⟩ (hw/2) c = true) : False := by
  simp only [canContainCircle, Bool.and_eq_true, decide_eq_true_eq, ge_iff_le] at h1 h2
  have hc : (0 : ℚ) < (c.radius : ℚ) := by exact_mod_cast hr
  linarith [h1.2, h2.1.1.2]

/-- Since at most one quadrant test succeeds, the last-match-wins scan of the
source equals the first-match rule of the spec. -/
theorem lastMatch_eq_firstMatch (center : Vec2) (hw : ℚ) (c : Circle)
    (hr : 0 < c.radius) :
    lastMatchGeom center hw c = firstMatchGeom center hw c := by
  unfold lastMatchGeom firstMatchGeom
  cases htl : canContainCircle ⟨center.x - hw/2, center.y - hw/2⟩ (hw/2) c <;>
  cases htr : canContainCircle ⟨center.x + hw/2, center.y - hw/2⟩ (hw/2) c <;>
  cases hbl : canContainCircle ⟨center.x - hw/2, center.y + hw/2⟩ (hw/2) c <;>
  cases hbr : canContainCircle ⟨center.x + hw/2, center.y + hw/2⟩ (hw/2) c <;>
  simp only [ite_true, ite_false] <;>
  first
    | rfl
    | exact (canContain_left_right_exclusive center.x hw (center.y - hw/2) (center.y - hw/2)
        c hr htl htr).elim
    | exact (canContain_left_right_exclusive center.x hw (center.y - hw/2) (center.y + hw/2)
        c hr htl hbr).elim
    | exact (canContain_left_right_exclusive center.x hw (center.y + hw/2) (center.y - hw/2)
        c hr hbl htr).elim
    | exact (canContain_left_right_exclusive center.x hw (center.y + hw/2) (center.y + hw/2)
        c hr hbl hbr).elim
    | exact (canContain_top_bottom_exclusive center.y hw (center.x - hw/2) (center.x - hw/2)
        c hr htl hbl).elim
    | exact (canContain_top_bottom_exclusive center.y hw (center.x + hw/2) (center.x + hw/2)
        c hr htr hbr).elim

/-- Insertion with the last-match-wins scan equals insertion with the
first-match rule, on every quad. -/
theorem insertWith_last_eq_first (q : Quad) (i : ℕ) (c : Circle) (hr : 0 < c.radius) :
    q.insertWith lastMatchGeom i c = q.insertWith firstMatchGeom i c := by
  induction q with
  | leaf ctr hw d objs => rfl
  | node ctr hw d objs tl tr bl br ih1 ih2 ih3 ih4 =>
    simp only [Quad.insertWith, lastMatch_eq_firstMatch ctr hw c hr]
    cases firstMatchGeom ctr hw c <;> simp [ih1, ih2, ih3, ih4]

/-- C8: for every quad with children and every circle of positive radius, the
four child-quadrant containment tests are mutually exclusive, so selecting
the first matching quadrant in the fixed order top-left, top-right,
bottom-left, bottom-right agrees with the code's scan of all four quadrants
where the last match wins, and consequently the two insertion strategies
produce identical trees. -/
theorem C8_first_match_equals_last_match :
    (∀ (center : Vec2) (hw : ℚ) (c : Circle), 0 < c.radius →
        lastMatchGeom center hw c = firstMatchGeom center hw c) ∧
    (∀ (q : Quad) (i : ℕ) (c : Circle), 0 < c.radius →
        q.insertWith lastMatchGeom i c = q.insertWith firstMatchGeom i c) :=
  ⟨fun center hw c hr => lastMatch_eq_firstMatch center hw c hr,
   fun q i c hr => insertWith_last_eq_first q i c hr⟩

/-- The constructor builds 12 rows. -/
theorem gridRowCount_eq : gridRowCount = 12 := by decide

/-- The constructor builds 22 cells per row. -/
theorem gridColCount_eq : gridColCount = 22 := by decide

/-- For coordinates within the C++ `int` range, the signed-vs-unsigned guard
of `refreshCellObjects` holds exactly when both coordinates are nonnegative
and below the grid's row and column counts: a negative coordinate wraps to a
huge `size_t` and fails. -/
theorem cellGuard_true_iff (gy gx : ℤ)
    (hy1 : -(2^31) ≤ gy) (hy2 : gy < 2^31) (hx1 : -(2^31) ≤ gx) (hx2 : gx < 2^31) :
    (cellGuard gy gx = true ↔ (0 ≤ gy ∧ gy < 12 ∧ 0 ≤ gx ∧ gx < 22)) := by
  simp only [cellGuard, Bool.and_eq_true, decide_eq_true_eq, gridRowCount_eq,
    gridColCount_eq, intToSizeT]
  omega

/-- C10: every `cells[gridY][gridX]` access performed while rebuilding the
uniform grid is in bounds — each recorded access index has passed the guard,
whose converted value is the subscript used — and for any coordinates in the
C++ `int` range the guard (signed value compared against the unsigned
container size) succeeds exactly when the row is in `[0, 12)` and the column
in `[0, 22)`, so negative or too-large coordinates are skipped and no
out-of-range indexing is reachable. -/
theorem C10_cell_accesses_in_bounds :
    (∀ (objs : List Circle), ∀ p ∈ refreshCellAccesses objs,
        p.1 < gridRowCount ∧ p.2 < gridColCount) ∧
    (∀ gy gx : ℤ, -(2^31) ≤ gy → gy < 2^31 → -(2^31) ≤ gx → gx < 2^31 →
        (cellGuard gy gx = true ↔ (0 ≤ gy ∧ gy < 12 ∧ 0 ≤ gx ∧ gx < 22))) := by
  constructor
  · intro objs p hp
    simp only [refreshCellAccesses, List.mem_flatMap, registeredCellsOf,
      List.mem_filterMap] at hp
    obtain ⟨c, _, q, _, hif⟩ := hp
    by_cases hg : cellGuard q.2 q.1 = true
    · rw [if_pos hg] at hif
      have hp2 : p = (intToSizeT q.2, intToSizeT q.1) := (Option.some.inj hif).symm
      simp only [cellGuard, Bool.and_eq_true, decide_eq_true_eq] at hg
      rw [hp2]
      exact hg
    · rw [if_neg hg] at hif
      cases hif
  · intro gy gx h1 h2 h3 h4
    exact cellGuard_true_iff gy gx h1 h2 h3 h4

/-- Membership in the ascending loop range. -/
theorem mem_intRangeAsc (a b k : ℤ) : k ∈ intRangeAsc a b ↔ a ≤ k ∧ k ≤ b := by
  simp only [intRangeAsc, List.mem_map, List.mem_range]
  constructor
  · rintro ⟨m, hm, rfl⟩
    omega
  · intro h
    exact ⟨(k - a).toNat, by omega, by omega⟩

/-- Membership in the descending loop range. -/
theorem mem_intRangeDesc (a b k : ℤ) : k ∈ intRangeDesc a b ↔ b ≤ k ∧ k ≤ a := by
  simp only [intRangeDesc, List.mem_map, List.mem_range]
  constructor
  · rintro ⟨m, hm, rfl⟩
    omega
  · intro h
    exact ⟨(a - k).toNat, by omega, by omega⟩

/-- A grid position is recorded by `refreshGridPositions` exactly when its
column lies between the floors of `(x - r)/60` and `(x + r)/60` and its row
between the floors of `(y - r)/60` and `(y + r)/60` (the single-cell shortcut
and the double loop describe the same rectangle). -/
theorem mem_refreshGridPositions (c : Circle) (i j : ℤ) :
    ((i, j) ∈ refreshGridPositions c ↔
      (⌊(c.position.x - (c.radius : ℚ)) / 60⌋ ≤ i ∧
       i ≤ ⌊(c.position.x + (c.radius : ℚ)) / 60⌋ ∧
       ⌊(c.position.y - (c.radius : ℚ)) / 60⌋ ≤ j ∧
       j ≤ ⌊(c.position.y + (c.radius : ℚ)) / 60⌋)) := by
  unfold refreshGridPositions convertToGridPosition GRID_SIZE
  dsimp only
  split
  next heq =>
    rw [Prod.mk.injEq] at heq
    obtain ⟨h1, h2⟩ := heq
    simp only [List.mem_singleton, Prod.mk.injEq]
    constructor
    · rintro ⟨rfl, rfl⟩
      omega
    · rintro ⟨ha, hb, hc, hd⟩
      omega
  next hne =>
    simp only [List.mem_flatMap, List.mem_map]
    constructor
    · rintro ⟨i1, hi1, j1, hj1, heq2⟩
      rw [Prod.mk.injEq] at heq2
      obtain ⟨rfl, rfl⟩ := heq2
      rw [mem_intRangeAsc] at hi1
      rw [mem_intRangeDesc] at hj1
      exact ⟨hi1.1, hi1.2, hj1.1, hj1.2⟩
    · rintro ⟨ha, hb, hc, hd⟩
      exact ⟨i, (mem_intRangeAsc _ _ _).mpr ⟨ha, hb⟩, j,
        (mem_intRangeDesc _ _ _).mpr ⟨hc, hd⟩, rfl⟩

/-- A `(row, col)` cell receives the body exactly when some recorded grid
position passes the guard and converts to it. -/
theorem mem_registeredCellsOf (c : Circle) (row col : ℕ) :
    ((row, col) ∈ registeredCellsOf c ↔
      ∃ gx gy : ℤ, (gx, gy) ∈ refreshGridPositions c ∧ cellGuard gy gx = true ∧
        row = intToSizeT gy ∧ col = intToSizeT gx) := by
  simp only [registeredCellsOf, List.mem_filterMap]
  constructor
  · rintro ⟨⟨gx, gy⟩, hmem, hif⟩
    by_cases hg : cellGuard gy gx = true
    · rw [if_pos hg] at hif
      have h2 := (Option.some.inj hif).symm
      rw [Prod.mk.injEq] at h2
      exact ⟨gx, gy, hmem, hg, h2.1, h2.2⟩
    · rw [if_neg hg] at hif
      cases hif
  · rintro ⟨gx, gy, hmem, hg, rfl, rfl⟩
    exact ⟨(gx, gy), hmem, by rw [if_pos hg]⟩

/-- Floors of bounded rationals divided by 60 stay well inside the 32-bit
range. -/
theorem floor_div_sixty_bounds (q : ℚ) (h1 : -(2^30 : ℚ) ≤ q) (h2 : q ≤ 2^30) :
    -(2^31) ≤ ⌊q / 60⌋ ∧ ⌊q / 60⌋ < 2^31 := by
  constructor
  · apply Int.le_floor.mpr
    rw [le_div_iff₀ (by norm_num : (0:ℚ) < 60)]
    push_cast
    linarith
  · apply Int.floor_lt.mpr
    rw [div_lt_iff₀ (by norm_num : (0:ℚ) < 60)]
    push_cast
    linarith

/-- C7 (amended): for a body whose AABB lies in a comfortably
machine-representable range, the set of uniform-grid cells it is registered
in is exactly the set of IN-RANGE cells (row below 12, column below 22)
whose half-open 60×60 square region overlaps the body's AABB.  Out-of-range
coordinates are skipped by the guard rather than clamped, so — contrary to
the original claim — a body entirely outside the grid is registered nowhere
(see the counterexample). -/
theorem C7_registered_cells_characterization (c : Circle) (hr : 0 ≤ c.radius)
    (hb1 : -(2^30 : ℚ) ≤ c.position.x - c.radius)
    (hb2 : c.position.x + c.radius ≤ 2^30)
    (hb3 : -(2^30 : ℚ) ≤ c.position.y - c.radius)
    (hb4 : c.position.y + c.radius ≤ 2^30) :
    ∀ row col : ℕ, ((row, col) ∈ registeredCellsOf c ↔
      (row < gridRowCount ∧ col < gridColCount ∧ cellRegionMeetsAABB row col c)) := by
  intro row col
  have h60 : (0 : ℚ) < 60 := by norm_num
  have hrQ : (0 : ℚ) ≤ (c.radius : ℚ) := by exact_mod_cast hr
  have bxl := floor_div_sixty_bounds (c.position.x - c.radius) hb1 (by linarith)
  have bxr := floor_div_sixty_bounds (c.position.x + c.radius) (by linarith) hb2
  have byl := floor_div_sixty_bounds (c.position.y - c.radius) hb3 (by linarith)
  have byr := floor_div_sixty_bounds (c.position.y + c.radius) (by linarith) hb4
  rw [mem_registeredCellsOf]
  simp only [cellRegionMeetsAABB, GRID_SIZE]
  constructor
  · rintro ⟨gx, gy, hmem, hg, rfl, rfl⟩
    rw [mem_refreshGridPositions] at hmem
    obtain ⟨hx1, hx2, hy1, hy2⟩ := hmem
    have hgx1 : -(2^31) ≤ gx := le_trans bxl.1 hx1
    have hgx2 : gx < 2^31 := lt_of_le_of_lt hx2 bxr.2
    have hgy1 : -(2^31) ≤ gy := le_trans byl.1 hy1
    have hgy2 : gy < 2^31 := lt_of_le_of_lt hy2 byr.2
    obtain ⟨hgy0, hgy12, hgx0, hgx22⟩ := (cellGuard_true_iff gy gx hgy1 hgy2 hgx1 hgx2).mp hg
    have hrowv : intToSizeT gy = gy.toNat := by
      unfold intToSizeT
      omega
    have hcolv : intToSizeT gx = gx.toNat := by
      unfold intToSizeT
      omega
    rw [hrowv, hcolv]
    have hcx : ((gx.toNat : ℚ)) = (gx : ℚ) := by exact_mod_cast Int.toNat_of_nonneg hgx0
    have hcy : ((gy.toNat : ℚ)) = (gy : ℚ) := by exact_mod_cast Int.toNat_of_nonneg hgy0
    refine ⟨by rw [gridRowCount_eq]; omega, by rw [gridColCount_eq]; omega, ?_, ?_, ?_, ?_⟩
    · rw [hcx]
      have h1 := Int.le_floor.mp hx2
      rw [le_div_iff₀ h60] at h1
      exact h1
    · rw [hcx]
      have h1 : ⌊(c.position.x - (c.radius : ℚ)) / 60⌋ < gx + 1 := by omega
      have h2 := Int.floor_lt.mp h1
      rw [div_lt_iff₀ h60] at h2
      push_cast at h2
      linarith
    · rw [hcy]
      have h1 := Int.le_floor.mp hy2
      rw [le_div_iff₀ h60] at h1
      exact h1
    · rw [hcy]
      have h1 : ⌊(c.position.y - (c.radius : ℚ)) / 60⌋ < gy + 1 := by omega
      have h2 := Int.floor_lt.mp h1
      rw [div_lt_iff₀ h60] at h2
      push_cast at h2
      linarith
  · rw [gridRowCount_eq, gridColCount_eq]
    rintro ⟨hrow, hcol, hm1, hm2, hm3, hm4⟩
    refine ⟨(col : ℤ), (row : ℤ), ?_, ?_, ?_, ?_⟩
    · rw [mem_refreshGridPositions]
      refine ⟨?_, ?_, ?_, ?_⟩
      · have h1 : (c.position.x - (c.radius : ℚ)) / 60 < ((col : ℤ) : ℚ) + 1 := by
          rw [div_lt_iff₀ h60]
          push_cast
          linarith
        have h2 : ⌊(c.position.x - (c.radius : ℚ)) / 60⌋ < (col : ℤ) + 1 :=
          Int.floor_lt.mpr (by push_cast; push_cast at h1; linarith)
        omega
      · apply Int.le_floor.mpr
        rw [le_div_iff₀ h60]
        push_cast
        linarith
      · have h1 : ⌊(c.position.y - (c.radius : ℚ)) / 60⌋ < (row : ℤ) + 1 :=
          Int.floor_lt.mpr (by rw [div_lt_iff₀ h60]; push_cast; linarith)
        omega
      · apply Int.le_floor.mpr
        rw [le_div_iff₀ h60]
        push_cast
        linarith
    · refine (cellGuard_true_iff (row : ℤ) (col : ℤ) (by omega) (by omega) (by omega)
        (by omega)).mpr ⟨by omega, by omega, by omega, by omega⟩
    · unfold intToSizeT
      omega
    · unfold intToSizeT
      omega


/-- Witness for C2's amended theorem at the spec scenario pair. -/
theorem C2_unigrid_pair_resolution_witness :
    upd [cHeadOnA, cHeadOnB] 0
        (fun x => unigridHandleAgainstAll x 0 [0, 1] [cHeadOnA, cHeadOnB]) =
      [{ cHeadOnA with velocity :=
          ⟨cHeadOnA.velocity.x +
              (cHeadOnB.position.x - cHeadOnA.position.x) * (1 / (cHeadOnA.mass : ℚ)) *
              (-((1 + ELASTICITY_grid) *
                ((cHeadOnA.velocity.x - cHeadOnB.velocity.x) *
                    (cHeadOnB.position.x - cHeadOnA.position.x) +
                 (cHeadOnA.velocity.y - cHeadOnB.velocity.y) *
                    (cHeadOnB.position.y - cHeadOnA.position.y)) /
                (((cHeadOnB.position.x - cHeadOnA.position.x) *
                    (cHeadOnB.position.x - cHeadOnA.position.x) +
                  (cHeadOnB.position.y - cHeadOnA.position.y) *
                    (cHeadOnB.position.y - cHeadOnA.position.y)) *
                 (1 / (cHeadOnA.mass : ℚ) + 1 / (cHeadOnB.mass : ℚ))))),
           cHeadOnA.velocity.y +
              (cHeadOnB.position.y - cHeadOnA.position.y) * (1 / (cHeadOnA.mass : ℚ)) *
              (-((1 + ELASTICITY_grid) *
                ((cHeadOnA.velocity.x - cHeadOnB.velocity.x) *
                    (cHeadOnB.position.x - cHeadOnA.position.x) +
                 (cHeadOnA.velocity.y - cHeadOnB.velocity.y) *
                    (cHeadOnB.position.y - cHeadOnA.position.y)) /
                (((cHeadOnB.position.x - cHeadOnA.position.x) *
                    (cHeadOnB.position.x - cHeadOnA.position.x) +
                  (cHeadOnB.position.y - cHeadOnA.position.y) *
                    (cHeadOnB.position.y - cHeadOnA.position.y)) *
                 (1 / (cHeadOnA.mass : ℚ) + 1 / (cHeadOnB.mass : ℚ)))))⟩ },
       cHeadOnB] :=
  C2_unigrid_pair_resolution_updates_only_first cHeadOnA cHeadOnB
    (by norm_num [collisionDetected, vector2DistanceSqr, cHeadOnA, cHeadOnB])
    (by norm_num [approaching, vector2Subtract, vector2DotProduct, cHeadOnA, cHeadOnB])

/-- Witness for C3 at the spec's scenario: the velocities come out exactly
(-10, 0) and (10, 0). -/
theorem C3_equal_mass_head_on_swap_witness :
    (quadResolvePair cHeadOnA cHeadOnB).1.velocity = ⟨-10, 0⟩ ∧
    (quadResolvePair cHeadOnA cHeadOnB).2.velocity = ⟨10, 0⟩ := by
  have h := C3_equal_mass_head_on_swap 1 10 10 100 115 100 10 (-10)
    (by norm_num) (by norm_num) (by norm_num)
  exact ⟨h.1, h.2.1⟩

/-- Witness for C4's amended theorem: two distinct bodies whose sub-deadzone
velocities integrate to the same state yield identical unigrid ticks. -/
theorem C4_deadzone_witness :
    cSlowA ≠ cSlowB ∧ unigridTick [cSlowA] = unigridTick [cSlowB] := by
  constructor
  · norm_num [cSlowA, cSlowB, Circle.mk.injEq, Vec2.mk.injEq]
  · exact C4_grid_and_quadtree_ticks_read_only_integrated_state.1 [cSlowA] [cSlowB] (by
      norm_num [unigridUpdate, vector2Add, vector2Scale, FRICTION_unigrid, TIMESTEP,
        VELOCITY_THRESHOLD, cSlowA, cSlowB, Circle.mk.injEq, Vec2.mk.injEq])

/-- Witness for C6's amended theorem at the spec's scenario: after one
integration step the body at (5,100) with velocity (-50,0) crosses the left
boundary, is restored to (5,100) and leaves with velocity (50,0). -/
theorem C6_edge_scenario_witness :
    (handleEdgeCollision (quadUpdate cLeftEdge ⟨0, 0⟩)).position = cLeftEdge.position ∧
    (handleEdgeCollision (quadUpdate cLeftEdge ⟨0, 0⟩)).velocity.x = 50 ∧
    (handleEdgeCollision (quadUpdate cLeftEdge ⟨0, 0⟩)).velocity.y = 0 := by
  have hu : quadUpdate cLeftEdge ⟨0, 0⟩ =
      (⟨10, 1, ⟨0, 0⟩, ⟨-50, 0⟩, ⟨25/6, 100⟩, ⟨5, 100⟩⟩ : Circle) := by
    norm_num [quadUpdate, vector2Add, vector2Scale, TIMESTEP, VELOCITY_THRESHOLD,
      cLeftEdge, Circle.mk.injEq, Vec2.mk.injEq]
  rw [hu]
  obtain ⟨hX, hY, hnX, hnY, hboth⟩ := C6_edge_collision_restores_and_reflects
    (⟨10, 1, ⟨0, 0⟩, ⟨-50, 0⟩, ⟨25/6, 100⟩, ⟨5, 100⟩⟩ : Circle)
  have h1 := hX (by norm_num [WINDOW_WIDTH])
  have h2 := hnY (by norm_num [WINDOW_HEIGHT])
  refine ⟨?_, ?_, ?_⟩
  · rw [h1.1]
    norm_num [cLeftEdge]
  · rw [h1.2]
    norm_num
  · rw [h2]

/-- Witness for C7's amended theorem: the in-bounds body at (100,100) with
radius 10 is registered in cell (1,1). -/
theorem C7_registered_cells_witness :
    (1, 1) ∈ registeredCellsOf cInsideGrid := by
  have h := C7_registered_cells_characterization cInsideGrid (by norm_num [cInsideGrid])
    (by norm_num [cInsideGrid]) (by norm_num [cInsideGrid]) (by norm_num [cInsideGrid])
    (by norm_num [cInsideGrid]) 1 1
  exact h.mpr ⟨by rw [gridRowCount_eq]; norm_num, by rw [gridColCount_eq]; norm_num,
    by norm_num [cellRegionMeetsAABB, GRID_SIZE, cInsideGrid]⟩

/-- Witness for C8 at the root quad and a positive-radius circle. -/
theorem C8_first_match_equals_last_match_witness :
    ((0 : ℤ) < cInsideGrid.radius) ∧
    lastMatchGeom ⟨640, 360⟩ 640 cInsideGrid = firstMatchGeom ⟨640, 360⟩ 640 cInsideGrid ∧
    rootQuad.insertWith lastMatchGeom 0 cInsideGrid =
      rootQuad.insertWith firstMatchGeom 0 cInsideGrid :=
  ⟨by norm_num [cInsideGrid],
   C8_first_match_equals_last_match.1 ⟨640, 360⟩ 640 cInsideGrid (by norm_num [cInsideGrid]),
   C8_first_match_equals_last_match.2 rootQuad 0 cInsideGrid (by norm_num [cInsideGrid])⟩

/-- Witness for C10: a concrete performed access is within the 12×22 bounds,
and the guard rejects a negative coordinate. -/
theorem C10_cell_accesses_witness :
    ((1, 1) ∈ refreshCellAccesses [cInsideGrid] ∧
     1 < gridRowCount ∧ 1 < gridColCount) ∧
    cellGuard (-1) 0 = false := by
  have hmem : ((1, 1) : ℕ × ℕ) ∈ refreshCellAccesses [cInsideGrid] := by
    have h : refreshGridPositions cInsideGrid = [(1, 1)] := by
      norm_num [refreshGridPositions, convertToGridPosition, GRID_SIZE, cInsideGrid]
    simp only [refreshCellAccesses, List.flatMap_cons, List.flatMap_nil, List.append_nil,
      registeredCellsOf, h]
    decide
  have hb := C10_cell_accesses_in_bounds.1 [cInsideGrid] (1, 1) hmem
  refine ⟨⟨hmem, hb.1, hb.2⟩, ?_⟩
  have hiff := C10_cell_accesses_in_bounds.2 (-1) 0 (by norm_num) (by norm_num)
    (by norm_num) (by norm_num)
  cases hgg : cellGuard (-1) 0
  · rfl
  · exact absurd ((hiff.mp hgg).1) (by norm_num)

end SDS
